import Mathlib

/-!
Verification of the refresh/input coordination engine of the es-stat
terminal dashboard.

The development shallowly embeds the Python sources:
  - esstat/input_handler.py : KeyListener.parse_keys (escape-sequence decoder)
  - esstat/dashboard.py     : Dashboard state and its operations
  - esstat/main.py          : _handle_key_events (Enter handling) and
                              _data_fetcher (refresh scheduling loop)

Machine times (Python floats from time.time()) are modelled as rationals;
Python dicts (which preserve insertion order) are modelled as association
lists; the four panel fetches of one refresh cycle are modelled by a single
FetchOutcome value, since the cycle awaits all of them before any state is
touched.
-/

namespace EsStat

/-! ### Key decoder (input_handler.py, KeyListener.parse_keys) -/

/-- The escape character 0x1B. -/
def esc : Char := '\x1b'

/-- Mapping of the third character of an ESC [ X sequence to an arrow key
name, as in the A/B/C/D branches of parse_keys. -/
def arrowKey (e : Char) : Option String :=
  if e = 'A' then some "UP"
  else if e = 'B' then some "DOWN"
  else if e = 'C' then some "RIGHT"
  else if e = 'D' then some "LEFT"
  else none

/-- Left-to-right scan of parse_keys over a character list, returning the
emitted key events and the pending escape buffer left for the next call.
Mirrors the index arithmetic of KeyListener.parse_keys: a recognised
ESC [ A/B/C/D sequence consumes three characters; an unrecognised third
character makes the scan emit the escape character itself as a plain key and
resume at the following character; an incomplete sequence at the end of the
input is buffered, never dropped. -/
def scanKeys : List Char → List String × List Char
  | [] => ([], [])
  | c :: rest =>
    if c = esc then
      match rest with
      | [] => ([], [c])
      | d :: rest2 =>
        if d = '[' then
          match rest2 with
          | [] => ([], [c, d])
          | e :: rest3 =>
            match arrowKey e with
            | some k =>
              let r := scanKeys rest3
              (k :: r.1, r.2)
            | none =>
              let r := scanKeys (d :: e :: rest3)
              (c.toString :: r.1, r.2)
        else
          let r := scanKeys (d :: rest2)
          (c.toString :: r.1, r.2)
    else
      let r := scanKeys rest
      (c.toString :: r.1, r.2)

/-- The part of KeyListener state that parse_keys reads and writes: the
pending escape buffer carried between calls. -/
structure KeyListener where
  escape_buffer : List Char
deriving DecidableEq

/-- KeyListener.parse_keys: prepend the buffered partial escape sequence to
the incoming characters, scan, and store the new pending buffer. -/
def KeyListener.parse_keys (kl : KeyListener) (chars : List Char) :
    List String × KeyListener :=
  let r := scanKeys (kl.escape_buffer ++ chars)
  (r.1, ⟨r.2⟩)

/-! ### Dashboard state (dashboard.py) -/

/-- The cached panel data (Dashboard._cached_data), a Python dict keyed by
the four panel identifiers.  A field is none while its key is absent (the
dict starts empty).  The status and settings payloads are association lists
(Python dicts preserve insertion order); the recovery and relocation
payloads are lists of records whose content the engine never inspects, kept
abstract as lists of strings. -/
structure Snapshot where
  status : Option (List (String × String))
  settings : Option (List (String × String))
  recov : Option (List String)
  reloc : Option (List String)
deriving DecidableEq

/-- The empty cache the dashboard starts with. -/
def Snapshot.empty : Snapshot := ⟨none, none, none, none⟩

/-- Dashboard state: the fields of Dashboard.__init__ that the coordination
engine reads or writes (layout/console objects are render-only and omitted).
Times are rationals standing for Python time.time() floats. -/
structure Dashboard where
  refresh_interval : Int
  show_help : Bool := false
  paused : Bool := false
  edit_mode : Bool := false
  selected_row : Int := 0
  cached_data : Snapshot := Snapshot.empty
  error_message : Option String := none
  data_ready : Bool := false
  last_refresh_time : Rat := 0
deriving DecidableEq

/-- A freshly constructed Dashboard (Dashboard.__init__). -/
def initDashboard (interval : Int) : Dashboard :=
  { refresh_interval := interval }

/-- Dashboard.toggle_help (the status-panel re-render is display-only). -/
def Dashboard.toggle_help (d : Dashboard) : Dashboard :=
  { d with show_help := !d.show_help }

/-- Dashboard.toggle_pause. -/
def Dashboard.toggle_pause (d : Dashboard) : Dashboard :=
  { d with paused := !d.paused }

/-- Dashboard.is_paused. -/
def Dashboard.is_paused (d : Dashboard) : Bool := d.paused

/-- Dashboard.toggle_edit_mode: flip the flag and, when entering edit mode,
reset the selection to the first row. -/
def Dashboard.toggle_edit_mode (d : Dashboard) : Dashboard :=
  let e := !d.edit_mode
  { d with edit_mode := e, selected_row := if e then 0 else d.selected_row }

/-- Dashboard.is_edit_mode. -/
def Dashboard.is_edit_mode (d : Dashboard) : Bool := d.edit_mode

/-- The settings payload as read by the selection operations:
self._cached_data.get("settings", \x7b\x7d). -/
def Dashboard.settingsData (d : Dashboard) : List (String × String) :=
  d.cached_data.settings.getD []

/-- Dashboard.move_selection_up: no-op unless edit mode is active and the
settings payload is non-empty; otherwise wrap with Python's modulo (Int.emod
agrees with Python % for a positive modulus). -/
def Dashboard.move_selection_up (d : Dashboard) : Dashboard :=
  if !d.edit_mode then d
  else
    let s := d.settingsData
    if s.isEmpty then d
    else if 0 < s.length then
      { d with selected_row := (d.selected_row - 1) % (s.length : Int) }
    else d

/-- Dashboard.move_selection_down. -/
def Dashboard.move_selection_down (d : Dashboard) : Dashboard :=
  if !d.edit_mode then d
  else
    let s := d.settingsData
    if s.isEmpty then d
    else if 0 < s.length then
      { d with selected_row := (d.selected_row + 1) % (s.length : Int) }
    else d

/-- Dashboard.get_selected_setting: the key/value pair at the cursor, or
none outside edit mode, with an empty settings payload, or with the cursor
out of range. -/
def Dashboard.get_selected_setting (d : Dashboard) :
    Option (String × String) :=
  if !d.edit_mode then none
  else
    let s := d.settingsData
    if s.isEmpty then none
    else if 0 ≤ d.selected_row ∧ d.selected_row < (s.length : Int) then
      s.get? d.selected_row.toNat
    else none

/-- Dashboard.set_error (the footer rebuild is display-only). -/
def Dashboard.set_error (d : Dashboard) (message : String) : Dashboard :=
  { d with error_message := some message }

/-- Dashboard.clear_error. -/
def Dashboard.clear_error (d : Dashboard) : Dashboard :=
  { d with error_message := none }

/-- What get_renderable chooses between: the loading placeholder or the
populated layout. -/
inductive RenderView where
  | loading : RenderView
  | layout : RenderView
deriving DecidableEq

/-- Dashboard.get_renderable: the loading state until data is ready. -/
def Dashboard.get_renderable (d : Dashboard) : RenderView :=
  if d.data_ready then RenderView.layout else RenderView.loading

/-! ### Refresh cycle (Dashboard.refresh and the _data_fetcher loop) -/

/-- The joint outcome of the four concurrent panel fetches of one cycle:
either some fetch raised (the TaskGroup re-raises before any cache write),
or all four returned payloads. -/
inductive FetchOutcome where
  | raises : FetchOutcome
  | returns (st se : List (String × String)) (rc rl : List String) :
      FetchOutcome
deriving DecidableEq

/-- The validation of Dashboard.refresh:
not status_data or not status_data.get("cluster_name") fails the cycle.
An absent key gives Python None and an empty string is falsy, so the status
payload is valid when it is non-empty and maps cluster_name to a non-empty
string. -/
def statusValid (st : List (String × String)) : Bool :=
  !st.isEmpty &&
    (match st.lookup "cluster_name" with
     | some v => !(v == "")
     | none => false)

/-- Dashboard.refresh at completion time now, returning the new state and
whether the cycle succeeded.  On a fetch exception nothing was written.
When the fetches return, all four cache entries are assigned BEFORE the
cluster_name validation, so a validation failure still leaves the cache
replaced; only on success are data_ready and last_refresh_time updated.
(_is_refreshing is set and cleared within the same call, so it is not part
of the per-call state here.) -/
def Dashboard.refresh (d : Dashboard) (out : FetchOutcome) (now : Rat) :
    Dashboard × Bool :=
  match out with
  | FetchOutcome.raises => (d, false)
  | FetchOutcome.returns st se rc rl =>
    let d1 := { d with cached_data := ⟨some st, some se, some rc, some rl⟩ }
    if statusValid st then
      ({ d1 with data_ready := true, last_refresh_time := now }, true)
    else
      (d1, false)

/-- Dashboard.get_next_refresh_time. -/
def Dashboard.get_next_refresh_time (d : Dashboard) : Rat :=
  d.last_refresh_time + d.refresh_interval

/-- Python int() truncates toward zero: floor for non-negative arguments,
ceiling for negative ones. -/
def pyInt (x : Rat) : Int :=
  if 0 ≤ x then x.floor else x.ceil

/-- Dashboard.get_seconds_until_refresh at current time now. -/
def Dashboard.get_seconds_until_refresh (d : Dashboard) (now : Rat) : Int :=
  if d.last_refresh_time = 0 then d.refresh_interval
  else
    max 0 (d.refresh_interval - pyInt (now - d.last_refresh_time))

/-- One refresh attempt as driven by _data_fetcher: await dashboard.refresh
and clear the error banner on success, or set it on any exception. -/
def fetchAttempt (d : Dashboard) (out : FetchOutcome) (now : Rat) :
    Dashboard :=
  let r := d.refresh out now
  if r.2 then r.1.clear_error else r.1.set_error "Error fetching data"

/-- The sleep computed at the top of each _data_fetcher loop iteration:
max(0.1, next_refresh - time.time()). -/
def sleepTime (d : Dashboard) (now : Rat) : Rat :=
  max (1 / 10) (d.get_next_refresh_time - now)

/-- One iteration of the _data_fetcher loop (shutdown not signalled):
compute the sleep, wake at now + sleep, and only when the pause flag (as
read at wake time) is clear attempt a fetch.  Returns the new dashboard
state, the wake time, and whether a fetch was attempted. -/
def fetcherIter (d : Dashboard) (now : Rat) (out : FetchOutcome) :
    Dashboard × Rat × Bool :=
  let wake := now + sleepTime d now
  if d.is_paused then (d, wake, false)
  else (fetchAttempt d out wake, wake, true)

/-! ### Event traces over the dashboard -/

/-- The dashboard-mutating operations reachable from the main loop: the key
handlers of _handle_key_events and a refresh attempt of _data_fetcher. -/
inductive Op where
  | toggleHelp : Op
  | togglePause : Op
  | toggleEdit : Op
  | moveUp : Op
  | moveDown : Op
  | enter : Op
  | refreshAttempt (out : FetchOutcome) (now : Rat) : Op
deriving DecidableEq

/-- The Enter branch of _handle_key_events: only in edit mode, and only
when a setting is currently selected, exit edit mode. -/
def handleEnter (d : Dashboard) : Dashboard :=
  if d.is_edit_mode then
    match d.get_selected_setting with
    | some _ => d.toggle_edit_mode
    | none => d
  else d

/-- Apply one operation to the dashboard. -/
def step (d : Dashboard) : Op → Dashboard
  | Op.toggleHelp => d.toggle_help
  | Op.togglePause => d.toggle_pause
  | Op.toggleEdit => d.toggle_edit_mode
  | Op.moveUp => d.move_selection_up
  | Op.moveDown => d.move_selection_down
  | Op.enter => handleEnter d
  | Op.refreshAttempt out now => fetchAttempt d out now

/-- Run a sequence of operations. -/
def run (d : Dashboard) (ops : List Op) : Dashboard := ops.foldl step d

/-- Whether an operation is a refresh attempt that succeeds (success of a
cycle depends only on the fetch outcome). -/
def opFetchSucceeds : Op → Bool
  | Op.refreshAttempt FetchOutcome.raises _ => false
  | Op.refreshAttempt (FetchOutcome.returns st _ _ _) _ => statusValid st
  | _ => false

/-- A concrete dashboard state used by witnesses: data already fetched (two
settings rows), edit mode active, cursor on the first row, last refresh at
time 100 with the default 5 second interval. -/
def sampleDash : Dashboard :=
  { refresh_interval := 5
    edit_mode := true
    cached_data := ⟨some [("cluster_name", "es")],
                    some [("a", "1"), ("b", "2")], some [], some []⟩
    data_ready := true
    last_refresh_time := 100 }

/-! ### Decoder lemmas -/

theorem scanKeys_nil : scanKeys [] = ([], []) := rfl

theorem scanKeys_esc_only : scanKeys [esc] = ([], [esc]) := by
  decide

theorem scanKeys_esc_open : scanKeys [esc, '['] = ([], [esc, '[']) := by
  decide

theorem scanKeys_arrow {e : Char} {k : String} (h : arrowKey e = some k)
    (rest : List Char) :
    scanKeys (esc :: '[' :: e :: rest) =
      (k :: (scanKeys rest).1, (scanKeys rest).2) := by
  simp [scanKeys, h]

theorem scanKeys_unknown {e : Char} (h : arrowKey e = none)
    (rest : List Char) :
    scanKeys (esc :: '[' :: e :: rest) =
      (esc.toString :: (scanKeys ('[' :: e :: rest)).1,
       (scanKeys ('[' :: e :: rest)).2) := by
  simp [scanKeys, h]

theorem scanKeys_esc_other {d : Char} (h : ¬d = '[') (rest : List Char) :
    scanKeys (esc :: d :: rest) =
      (esc.toString :: (scanKeys (d :: rest)).1,
       (scanKeys (d :: rest)).2) := by
  rw [scanKeys.eq_def]
  simp [h]

theorem scanKeys_plain {c : Char} (h : ¬c = esc) (rest : List Char) :
    scanKeys (c :: rest) =
      (c.toString :: (scanKeys rest).1, (scanKeys rest).2) := by
  rw [scanKeys.eq_def]
  simp [h]

/-- Scanning a concatenation equals scanning the first part and then
resuming on its pending buffer followed by the second part. -/
theorem scanKeys_append (xs ys : List Char) :
    scanKeys (xs ++ ys) =
      ((scanKeys xs).1 ++ (scanKeys ((scanKeys xs).2 ++ ys)).1,
       (scanKeys ((scanKeys xs).2 ++ ys)).2) := by
  induction xs using scanKeys.induct with
  | case1 => simp [scanKeys_nil]
  | case2 => simp [scanKeys_esc_only]
  | case3 => simp [scanKeys_esc_open]
  | case4 e rest3 k hk ih => simp [scanKeys_arrow hk, ih]
  | case5 e rest3 hk ih =>
    simp only [List.cons_append] at ih
    simp [scanKeys_unknown hk, ih]
  | case6 d rest2 hd ih =>
    simp only [List.cons_append] at ih
    simp [scanKeys_esc_other hd, ih]
  | case7 c rest hc ih => simp [scanKeys_plain hc, ih]

/-- C3: for every sequence of raw characters and every split of it into two
consecutive batches (at any boundary, including inside a multi-byte escape
sequence), parsing the two batches in order with the pending-escape buffer
carried between calls yields exactly the same sequence of key events as
parsing the whole concatenated sequence in one call, and leaves the same
pending buffer, so no character is dropped. -/
theorem parse_keys_split_invariance (xs ys : List Char) :
    ((KeyListener.mk []).parse_keys xs).1 ++
        (((KeyListener.mk []).parse_keys xs).2.parse_keys ys).1 =
      ((KeyListener.mk []).parse_keys (xs ++ ys)).1 ∧
    (((KeyListener.mk []).parse_keys xs).2.parse_keys ys).2 =
      ((KeyListener.mk []).parse_keys (xs ++ ys)).2 := by
  have h := scanKeys_append xs ys
  simp [KeyListener.parse_keys, h]

/-- C4 counterexample: when the third character of an ESC [ X sequence is
itself the escape character, the decoder does NOT emit it as a plain key as
the claim states: it emits only ESC and the bracket, and buffers the second
escape as the start of a new pending sequence. -/
theorem arrow_fallback_escape_cex :
    scanKeys [esc, '[', esc] =
      ([esc.toString, Char.toString '['], [esc]) ∧
    (scanKeys [esc, '[', esc]).1 ≠
      [esc.toString, Char.toString '[', esc.toString] := by
  decide

/-- C4 amended: ESC [ A, ESC [ B, ESC [ C, ESC [ D decode to exactly UP,
DOWN, RIGHT, LEFT; and for any other third character X that is not itself
an escape character, the decoder emits the literal ESC as a plain key
followed by the bracket and X as plain keys.  (When X is an escape
character, ESC and the bracket are still emitted as plain keys and scanning
resumes at X, which may begin a new escape sequence.) -/
theorem arrow_decode_amended :
    (∀ rest, scanKeys (esc :: '[' :: 'A' :: rest) =
      ("UP" :: (scanKeys rest).1, (scanKeys rest).2)) ∧
    (∀ rest, scanKeys (esc :: '[' :: 'B' :: rest) =
      ("DOWN" :: (scanKeys rest).1, (scanKeys rest).2)) ∧
    (∀ rest, scanKeys (esc :: '[' :: 'C' :: rest) =
      ("RIGHT" :: (scanKeys rest).1, (scanKeys rest).2)) ∧
    (∀ rest, scanKeys (esc :: '[' :: 'D' :: rest) =
      ("LEFT" :: (scanKeys rest).1, (scanKeys rest).2)) ∧
    (∀ e rest, arrowKey e = none → ¬e = esc →
      scanKeys (esc :: '[' :: e :: rest) =
        (esc.toString :: Char.toString '[' :: e.toString ::
          (scanKeys rest).1, (scanKeys rest).2)) := by
  refine ⟨fun rest => scanKeys_arrow (by decide) rest,
          fun rest => scanKeys_arrow (by decide) rest,
          fun rest => scanKeys_arrow (by decide) rest,
          fun rest => scanKeys_arrow (by decide) rest,
          fun e rest he hesc => ?_⟩
  rw [scanKeys_unknown he, scanKeys_plain (by decide), scanKeys_plain hesc]

/-- C4 amended witness at the concrete unknown third character x. -/
theorem arrow_decode_amended_witness :
    arrowKey 'x' = none ∧ ¬('x' = esc) ∧
    scanKeys [esc, '[', 'x'] =
      ([esc.toString, Char.toString '[', Char.toString 'x'], []) := by
  refine ⟨by decide, by decide, ?_⟩
  have h := arrow_decode_amended.2.2.2.2 'x' [] (by decide) (by decide)
  simpa [scanKeys_nil] using h

/-! ### Refresh cycle and the snapshot store (C1, C2) -/

/-- C1 counterexample: a refresh cycle whose fetches return but whose status
payload lacks a cluster identifier FAILS the cycle, yet the cached panel
data has already been overwritten with the new (empty) payloads, so a
failed cycle can mutate the snapshot store. -/
theorem refresh_failed_cycle_mutates_cache_cex :
    ((({ refresh_interval := 5,
         cached_data := ⟨some [("cluster_name", "es")], some [("a", "1")],
                         some [], some []⟩,
         data_ready := true, last_refresh_time := 100 } :
        Dashboard).refresh (FetchOutcome.returns [] [] [] []) 104).2
        = false) ∧
    ((({ refresh_interval := 5,
         cached_data := ⟨some [("cluster_name", "es")], some [("a", "1")],
                         some [], some []⟩,
         data_ready := true, last_refresh_time := 100 } :
        Dashboard).refresh
          (FetchOutcome.returns [] [] [] []) 104).1.cached_data
        ≠ ⟨some [("cluster_name", "es")], some [("a", "1")],
           some [], some []⟩) := by
  decide

/-- C1 amended: if any fetch raises, the snapshot store is left exactly as
it was; on success all four panel entries are replaced in the same update;
but if the fetches return payloads whose status lacks a cluster identifier,
the cycle fails AFTER all four entries have already been replaced (only
data_ready and the refresh timestamp are left untouched). -/
theorem refresh_cache_update_amended (d : Dashboard)
    (st se : List (String × String)) (rc rl : List String) (now : Rat) :
    (d.refresh FetchOutcome.raises now = (d, false)) ∧
    (statusValid st = true →
      d.refresh (FetchOutcome.returns st se rc rl) now =
        ({ d with cached_data := ⟨some st, some se, some rc, some rl⟩,
                  data_ready := true, last_refresh_time := now }, true)) ∧
    (statusValid st = false →
      d.refresh (FetchOutcome.returns st se rc rl) now =
        ({ d with cached_data := ⟨some st, some se, some rc, some rl⟩ },
          false)) := by
  refine ⟨rfl, fun h => ?_, fun h => ?_⟩ <;> simp [Dashboard.refresh, h]

/-- C1 amended witness: a successful refresh replaces all four entries. -/
theorem refresh_cache_update_amended_witness :
    statusValid [("cluster_name", "es")] = true ∧
    sampleDash.refresh
        (FetchOutcome.returns [("cluster_name", "es")] [("a", "1")] [] [])
        104 =
      ({ sampleDash with
          cached_data := ⟨some [("cluster_name", "es")], some [("a", "1")],
                          some [], some []⟩,
          data_ready := true, last_refresh_time := 104 }, true) :=
  ⟨by decide,
   (refresh_cache_update_amended sampleDash [("cluster_name", "es")]
      [("a", "1")] [] [] 104).2.1 (by decide)⟩

/-- C2 counterexample: after a failed attempt the timestamp is NOT
recomputed (it keeps its pre-attempt value), so the next deadline falls in
the past and the loop sleeps only 0.1 seconds, strictly sooner than the
full interval a successful attempt would have scheduled. -/
theorem failed_attempt_schedules_sooner_cex :
    ((({ refresh_interval := 5, data_ready := true,
         last_refresh_time := 100 } :
        Dashboard).refresh
          (FetchOutcome.returns [] [] [] []) 104).1.last_refresh_time
        = 100) ∧
    ((({ refresh_interval := 5, data_ready := true,
         last_refresh_time := 100 } :
        Dashboard).refresh
          (FetchOutcome.returns [] [] [] []) 104).1.last_refresh_time
        ≠ 104) ∧
    (sleepTime
        (({ refresh_interval := 5, data_ready := true,
            last_refresh_time := 100 } :
          Dashboard).refresh (FetchOutcome.returns [] [] [] []) 104).1 105 <
      sleepTime
        (({ refresh_interval := 5, data_ready := true,
            last_refresh_time := 100 } :
          Dashboard).refresh
            (FetchOutcome.returns [("cluster_name", "es")] [] [] []) 104).1
          105) := by
  refine ⟨by decide, by decide, ?_⟩
  have hes : ("es" = "") = False := by simp
  norm_num [Dashboard.refresh, statusValid, sleepTime,
    Dashboard.get_next_refresh_time, max_def, hes]

/-- C2 amended: the next scheduled fetch time equals the last stamped
timestamp plus the interval, but the timestamp is stamped only when an
attempt SUCCEEDS; a failed attempt leaves the timestamp (and hence the
schedule) unchanged, so once the old deadline has passed, failures retry
after the loop's 0.1 second minimum sleep — sooner than a success would. -/
theorem next_refresh_schedule_amended (d : Dashboard) (out : FetchOutcome)
    (now t : Rat) :
    d.get_next_refresh_time = d.last_refresh_time + d.refresh_interval ∧
    ((d.refresh out now).2 = true →
      (d.refresh out now).1.last_refresh_time = now) ∧
    ((d.refresh out now).2 = false →
      (d.refresh out now).1.last_refresh_time = d.last_refresh_time ∧
      sleepTime (d.refresh out now).1 t = sleepTime d t) := by
  refine ⟨rfl, ?_, ?_⟩ <;>
    cases out with
    | raises =>
      simp [Dashboard.refresh, sleepTime, Dashboard.get_next_refresh_time]
    | returns st se rc rl =>
      by_cases h : statusValid st <;>
        simp [Dashboard.refresh, h, sleepTime,
          Dashboard.get_next_refresh_time]

/-- C2 amended witness: a failed (raising) attempt keeps the timestamp and
the schedule. -/
theorem next_refresh_schedule_amended_witness :
    (sampleDash.refresh FetchOutcome.raises 104).2 = false ∧
    ((sampleDash.refresh FetchOutcome.raises 104).1.last_refresh_time =
        sampleDash.last_refresh_time ∧
      sleepTime (sampleDash.refresh FetchOutcome.raises 104).1 105 =
        sleepTime sampleDash 105) :=
  ⟨rfl,
   (next_refresh_schedule_amended sampleDash FetchOutcome.raises 104
      105).2.2 rfl⟩

/-! ### Selection movement and edit mode (C5, C6, C9) -/

theorem neg_one_emod_eq {n : Int} (h : 0 < n) : (-1 : Int) % n = n - 1 := by
  have h2 : ((-1 : Int) + n * 1) % n = (-1 : Int) % n :=
    Int.add_mul_emod_self_left (-1) n 1
  have h3 : ((-1 : Int) + n * 1) = n - 1 := by ring
  rw [h3] at h2
  rw [← h2]
  exact Int.emod_eq_of_lt (by omega) (by omega)

theorem move_selection_wrap_aux (d : Dashboard)
    (hedit : d.edit_mode = true) (hN : 0 < d.settingsData.length) :
    (d.selected_row = 0 →
      (d.move_selection_up).selected_row =
        (d.settingsData.length : Int) - 1) ∧
    (d.selected_row = (d.settingsData.length : Int) - 1 →
      (d.move_selection_down).selected_row = 0) := by
  have hne : d.settingsData.isEmpty = false := by
    cases hs : d.settingsData with
    | nil => rw [hs] at hN; simp at hN
    | cons a l => simp [List.isEmpty]
  constructor
  · intro h0
    simp [Dashboard.move_selection_up, hedit, hne, hN, h0]
    exact neg_one_emod_eq (by exact_mod_cast hN)
  · intro hl
    simp [Dashboard.move_selection_down, hedit, hne, hN, hl]

theorem move_selection_noop_aux (d : Dashboard)
    (h : d.edit_mode = false ∨ d.settingsData.length = 0) :
    d.move_selection_up = d ∧ d.move_selection_down = d := by
  rcases h with h | h
  · simp [Dashboard.move_selection_up, Dashboard.move_selection_down, h]
  · have hne : d.settingsData.isEmpty = true := by
      cases hs : d.settingsData with
      | nil => simp [List.isEmpty]
      | cons a l => rw [hs] at h; simp at h
    simp [Dashboard.move_selection_up, Dashboard.move_selection_down, hne]

/-- C5: with edit mode active and N greater than 0 editable settings rows,
move-up from row 0 sets the cursor to N - 1 and move-down from row N - 1
sets it to 0 (movement wraps modulo N); with edit mode inactive or N = 0,
move-up and move-down leave the whole state unchanged. -/
theorem move_selection_wrap_noop (d : Dashboard) :
    (d.edit_mode = true → 0 < d.settingsData.length →
      (d.selected_row = 0 →
        (d.move_selection_up).selected_row =
          (d.settingsData.length : Int) - 1) ∧
      (d.selected_row = (d.settingsData.length : Int) - 1 →
        (d.move_selection_down).selected_row = 0)) ∧
    (d.edit_mode = false ∨ d.settingsData.length = 0 →
      d.move_selection_up = d ∧ d.move_selection_down = d) :=
  ⟨fun hedit hN => move_selection_wrap_aux d hedit hN,
   fun h => move_selection_noop_aux d h⟩

/-- C5 witness: moving up from row 0 of the two sample rows wraps to 1. -/
theorem move_selection_wrap_noop_witness :
    sampleDash.edit_mode = true ∧ 0 < sampleDash.settingsData.length ∧
    sampleDash.selected_row = 0 ∧
    (sampleDash.move_selection_up).selected_row =
      (sampleDash.settingsData.length : Int) - 1 :=
  ⟨rfl, by decide, rfl,
   ((move_selection_wrap_noop sampleDash).1 rfl (by decide)).1 rfl⟩

/-- C6 counterexample: a successful refresh that shrinks the settings
payload while edit mode is active leaves the selected row index out of the
range bounded by the number of editable rows, violating the claimed
invariant over every operation. -/
theorem selection_invariant_refresh_cex :
    ((run (initDashboard 5)
        [Op.refreshAttempt
            (FetchOutcome.returns [("cluster_name", "es")]
              [("a", "1"), ("b", "2")] [] []) 1,
         Op.toggleEdit, Op.moveDown,
         Op.refreshAttempt
            (FetchOutcome.returns [("cluster_name", "es")] [("a", "1")] [] [])
            2]).edit_mode = true) ∧
    ¬((run (initDashboard 5)
        [Op.refreshAttempt
            (FetchOutcome.returns [("cluster_name", "es")]
              [("a", "1"), ("b", "2")] [] []) 1,
         Op.toggleEdit, Op.moveDown,
         Op.refreshAttempt
            (FetchOutcome.returns [("cluster_name", "es")] [("a", "1")] [] [])
            2]).selected_row <
      ((run (initDashboard 5)
        [Op.refreshAttempt
            (FetchOutcome.returns [("cluster_name", "es")]
              [("a", "1"), ("b", "2")] [] []) 1,
         Op.toggleEdit, Op.moveDown,
         Op.refreshAttempt
            (FetchOutcome.returns [("cluster_name", "es")] [("a", "1")] [] [])
            2]).settingsData.length : Int)) := by
  decide

/-- C6 amended: entering edit mode resets the index to 0; the movement
operations keep the index within the editable-row range whenever there are
rows; and the selection lookup guards against an out-of-range index by
returning none — but a refresh that shrinks the settings payload while edit
mode is active can leave the index out of range (see the counterexample). -/
theorem selection_invariant_amended (d : Dashboard) :
    (d.edit_mode = false →
      (d.toggle_edit_mode).selected_row = 0 ∧
      (d.toggle_edit_mode).edit_mode = true) ∧
    (d.edit_mode = true → 0 < d.settingsData.length →
      (0 ≤ (d.move_selection_up).selected_row ∧
        (d.move_selection_up).selected_row <
          (d.settingsData.length : Int)) ∧
      (0 ≤ (d.move_selection_down).selected_row ∧
        (d.move_selection_down).selected_row <
          (d.settingsData.length : Int))) ∧
    (¬(0 ≤ d.selected_row ∧
        d.selected_row < (d.settingsData.length : Int)) →
      d.get_selected_setting = none) := by
  refine ⟨fun h => ?_, fun he hn => ?_, fun hc => ?_⟩
  · simp [Dashboard.toggle_edit_mode, h]
  · have hne : d.settingsData.isEmpty = false := by
      cases hs : d.settingsData with
      | nil => rw [hs] at hn; simp at hn
      | cons a l => simp [List.isEmpty]
    have hn0 : (0 : Int) < (d.settingsData.length : Int) := by
      exact_mod_cast hn
    refine ⟨⟨?_, ?_⟩, ⟨?_, ?_⟩⟩ <;>
      simp [Dashboard.move_selection_up, Dashboard.move_selection_down,
        he, hne, hn]
    · exact Int.emod_nonneg _ (by omega)
    · exact Int.emod_lt_of_pos _ hn0
    · exact Int.emod_nonneg _ (by omega)
    · exact Int.emod_lt_of_pos _ hn0
  · by_cases he : d.edit_mode
    · by_cases hs : d.settingsData.isEmpty
      · simp [Dashboard.get_selected_setting, he, hs]
      · simp [Dashboard.get_selected_setting, he, hs, hc]
    · simp [Dashboard.get_selected_setting, he]

/-- C6 amended witness: movement stays in range on the two sample rows. -/
theorem selection_invariant_amended_witness :
    sampleDash.edit_mode = true ∧ 0 < sampleDash.settingsData.length ∧
    (0 ≤ (sampleDash.move_selection_up).selected_row ∧
      (sampleDash.move_selection_up).selected_row <
        (sampleDash.settingsData.length : Int)) :=
  ⟨rfl, by decide,
   ((selection_invariant_amended sampleDash).2.1 rfl (by decide)).1⟩

/-- C9 counterexample: with edit mode active but no settings payload cached,
the confirm (Enter) action does NOT exit edit mode — the selection lookup
yields nothing, so the handler leaves the state untouched. -/
theorem enter_no_selection_keeps_edit_cex :
    handleEnter { refresh_interval := 5, edit_mode := true } =
      { refresh_interval := 5, edit_mode := true } ∧
    (handleEnter
        ({ refresh_interval := 5, edit_mode := true } :
          Dashboard)).edit_mode ≠ false := by
  decide

/-- C9 amended: with edit mode active, when the lookup at the cursor yields
a key/value pair the confirm action exits edit mode as its only effect on
the state (the pair is what get_selected_setting returns to the caller);
when the lookup yields nothing (no cached settings or an out-of-range
cursor) the confirm action leaves the state unchanged and edit mode stays
active. -/
theorem enter_confirm_amended (d : Dashboard) (h : d.edit_mode = true) :
    (∀ kv, d.get_selected_setting = some kv →
      handleEnter d = { d with edit_mode := false }) ∧
    (d.get_selected_setting = none → handleEnter d = d) := by
  constructor
  · intro kv hkv
    simp [handleEnter, Dashboard.is_edit_mode, h, hkv,
      Dashboard.toggle_edit_mode]
  · intro hn
    simp [handleEnter, Dashboard.is_edit_mode, h, hn]

/-- C9 amended witness: confirming the selected first sample row exits edit
mode and changes nothing else. -/
theorem enter_confirm_amended_witness :
    sampleDash.edit_mode = true ∧
    sampleDash.get_selected_setting = some ("a", "1") ∧
    handleEnter sampleDash = { sampleDash with edit_mode := false } :=
  ⟨rfl, by decide,
   (enter_confirm_amended sampleDash rfl).1 ("a", "1") (by decide)⟩

/-! ### Pause and scheduling (C7) -/

/-- C7: while the paused flag is set, a scheduler-loop iteration attempts no
fetch and leaves the dashboard (including the refresh clock) unchanged;
once the flag is cleared, an iteration whose deadline has already passed
attempts a fetch after only the minimal 0.1 second sleep, and in general a
resumed iteration attempts a fetch within one refresh interval. -/
theorem paused_skips_fetch_resume_prompt (d : Dashboard) (now : Rat)
    (out : FetchOutcome) :
    (d.paused = true →
      fetcherIter d now out = (d, now + sleepTime d now, false)) ∧
    (d.paused = false → d.get_next_refresh_time ≤ now →
      (fetcherIter d now out).2.2 = true ∧
      (fetcherIter d now out).2.1 = now + 1 / 10) ∧
    (d.paused = false → d.last_refresh_time ≤ now →
      1 / 10 ≤ (d.refresh_interval : Rat) →
      (fetcherIter d now out).2.2 = true ∧
      (fetcherIter d now out).2.1 - now ≤ (d.refresh_interval : Rat)) := by
  refine ⟨fun hp => ?_, fun hp hd => ?_, fun hp hl hi => ?_⟩
  · simp [fetcherIter, Dashboard.is_paused, hp]
  · have hs : sleepTime d now = 1 / 10 := by
      unfold sleepTime
      apply max_eq_left
      linarith
    simp [fetcherIter, Dashboard.is_paused, hp, hs]
  · have hs : sleepTime d now ≤ (d.refresh_interval : Rat) := by
      unfold sleepTime Dashboard.get_next_refresh_time
      apply max_le hi
      linarith
    constructor
    · simp [fetcherIter, Dashboard.is_paused, hp]
    · simp only [fetcherIter, Dashboard.is_paused, hp, Bool.false_eq_true,
        if_false]
      linarith

/-- C7 witness: a paused iteration at time 104 skips the fetch; an unpaused
iteration at time 106 (deadline 105 already passed) fetches at 106.1. -/
theorem paused_skips_fetch_resume_prompt_witness :
    ({ sampleDash with paused := true } : Dashboard).paused = true ∧
    fetcherIter { sampleDash with paused := true } 104 FetchOutcome.raises =
      ({ sampleDash with paused := true },
        104 + sleepTime { sampleDash with paused := true } 104, false) ∧
    sampleDash.paused = false ∧
    ((fetcherIter sampleDash 106 FetchOutcome.raises).2.2 = true ∧
      (fetcherIter sampleDash 106 FetchOutcome.raises).2.1 = 106 + 1 / 10) :=
  ⟨rfl,
   (paused_skips_fetch_resume_prompt { sampleDash with paused := true } 104
      FetchOutcome.raises).1 rfl,
   rfl,
   (paused_skips_fetch_resume_prompt sampleDash 106
      FetchOutcome.raises).2.1 rfl
      (by norm_num [sampleDash, Dashboard.get_next_refresh_time])⟩

/-! ### The data-ready latch (C8) -/

theorem step_data_ready (d : Dashboard) (op : Op) :
    (step d op).data_ready = (d.data_ready || opFetchSucceeds op) := by
  cases op with
  | toggleHelp => simp [step, Dashboard.toggle_help, opFetchSucceeds]
  | togglePause => simp [step, Dashboard.toggle_pause, opFetchSucceeds]
  | toggleEdit => simp [step, Dashboard.toggle_edit_mode, opFetchSucceeds]
  | moveUp =>
    simp only [step, opFetchSucceeds, Bool.or_false]
    unfold Dashboard.move_selection_up
    dsimp only
    split
    · rfl
    · split
      · rfl
      · split <;> rfl
  | moveDown =>
    simp only [step, opFetchSucceeds, Bool.or_false]
    unfold Dashboard.move_selection_down
    dsimp only
    split
    · rfl
    · split
      · rfl
      · split <;> rfl
  | enter =>
    simp only [step, opFetchSucceeds, Bool.or_false]
    unfold handleEnter
    split
    · split
      · simp [Dashboard.toggle_edit_mode]
      · rfl
    · rfl
  | refreshAttempt out now =>
    cases out with
    | raises =>
      simp [step, fetchAttempt, Dashboard.refresh, opFetchSucceeds,
        Dashboard.set_error]
    | returns st se rc rl =>
      by_cases h : statusValid st <;>
        simp [step, fetchAttempt, Dashboard.refresh, h, opFetchSucceeds,
          Dashboard.set_error, Dashboard.clear_error]

theorem run_data_ready (ops : List Op) :
    ∀ d : Dashboard,
      (run d ops).data_ready = (d.data_ready || ops.any opFetchSucceeds) := by
  induction ops with
  | nil => intro d; simp [run]
  | cons op ops ih =>
    intro d
    have h1 : run d (op :: ops) = run (step d op) ops := rfl
    rw [h1, ih (step d op), step_data_ready]
    simp [List.any_cons, Bool.or_assoc]

/-- C8: the data-ready latch is one-way and flips exactly on the first
successful refresh: after any sequence of operations the latch is set iff
it was already set or some refresh attempt in the sequence succeeded, and
starting from a fresh dashboard the UI renders the loading state exactly as
long as no attempt has succeeded. -/
theorem data_ready_latch (ops : List Op) :
    (∀ d : Dashboard,
      (run d ops).data_ready = (d.data_ready || ops.any opFetchSucceeds)) ∧
    ((run (initDashboard 5) ops).data_ready = ops.any opFetchSucceeds) ∧
    ((run (initDashboard 5) ops).get_renderable =
      if ops.any opFetchSucceeds then RenderView.layout
      else RenderView.loading) := by
  refine ⟨fun d => run_data_ready ops d, ?_, ?_⟩
  · rw [run_data_ready ops (initDashboard 5)]
    simp [initDashboard]
  · rw [Dashboard.get_renderable, run_data_ready ops (initDashboard 5)]
    simp [initDashboard]

/-! ### Countdown query (C10) -/

/-- C10: whenever the current time is not earlier than the last refresh
timestamp (and the configured interval is non-negative, as the constructor
always passes), get_seconds_until_refresh returns an integer within the
closed range from 0 to the refresh interval; before any successful refresh
(timestamp still 0) it returns exactly the refresh interval. -/
theorem seconds_until_refresh_bounds (d : Dashboard) (now : Rat)
    (h1 : d.last_refresh_time ≤ now) (h2 : 0 ≤ d.refresh_interval) :
    (0 ≤ d.get_seconds_until_refresh now ∧
      d.get_seconds_until_refresh now ≤ d.refresh_interval) ∧
    (d.last_refresh_time = 0 →
      d.get_seconds_until_refresh now = d.refresh_interval) := by
  unfold Dashboard.get_seconds_until_refresh
  by_cases h0 : d.last_refresh_time = 0
  · simp [h0, h2]
  · have hnn : (0 : Rat) ≤ now - d.last_refresh_time := by linarith
    have hp : pyInt (now - d.last_refresh_time) =
        (now - d.last_refresh_time).floor := by simp [pyInt, hnn]
    have hfl : 0 ≤ (now - d.last_refresh_time).floor := by
      rw [Rat.le_floor]
      exact_mod_cast hnn
    rw [if_neg h0]
    refine ⟨⟨le_max_left 0 _, ?_⟩, fun hc => absurd hc h0⟩
    apply max_le h2
    rw [hp]
    omega

/-- C10 witness: bounds at the sample state (elapsed 3 of 5 seconds) and
exact value before any successful refresh. -/
theorem seconds_until_refresh_bounds_witness :
    (0 ≤ sampleDash.get_seconds_until_refresh 103 ∧
      sampleDash.get_seconds_until_refresh 103 ≤
        sampleDash.refresh_interval) ∧
    (initDashboard 5).get_seconds_until_refresh 42 =
      (initDashboard 5).refresh_interval :=
  ⟨(seconds_until_refresh_bounds sampleDash 103 (by decide) (by decide)).1,
   (seconds_until_refresh_bounds (initDashboard 5) 42 (by decide)
      (by decide)).2 rfl⟩

end EsStat
